import Mathlib

/-!
Shallow embedding of the spacemap design-space mapping engine
(src/spacemap/utilities/data_collection.py, src/spacemap/utilities/map.py,
src/spacemap/dimensionality/pca.py, src/spacemap/mapping.py).

Real numbers are modelled by the rationals.  Python dynamic values that the
code branches on (the False failure sentinel, scalar-versus-list results,
numpy arrays versus plain lists) are modelled by explicit sum types, and the
exceptions Python raises (TypeError, ValueError, IndexError) by an
Except String monad.  The numpy quirk that the truth value of a comparison
with None is only defined for arrays of exactly one element is modelled
faithfully, as is the Python parsing of the statement err =+ 1 as an
assignment of +1.
-/

deriving instance DecidableEq for Except

/- The core rational operations are shipped irreducible, which stops the
evaluation of closed statements about the embedded code; restore the default
reducibility so that decide can run the embedding on concrete inputs. -/
set_option allowUnsafeReducibility true in
attribute [semireducible] Rat.add Rat.sub Rat.mul Rat.inv

namespace Spacemap

/-- One entry of the result list stored in a Sample: either a Python float
or a numpy array that was stored as a single element (the latter is what
load_from_csv produces). -/
inductive ResVal where
  | num (q : ℚ)
  | arr (qs : List ℚ)
deriving DecidableEq, Repr, Inhabited

/-- The Python value handed to add_sample as the result argument:
a plain list, a numpy array, or a scalar.  Sample.__init__ wraps the two
non-list forms in a singleton list (data_collection.py lines 40-45). -/
inductive ResultArg where
  | pylist (rs : List ResVal)
  | nparray (qs : List ℚ)
  | scalar (q : ℚ)
deriving DecidableEq, Repr

/-- data_collection.py, class Sample.  parameters_size and result_size are
maintained equal to the lengths of the stored lists by construction, so they
are exposed as definitions below rather than stored twice. -/
structure Sample where
  parameters : List ℚ
  simulation_name : String
  result : List ResVal
  result_name : String
deriving DecidableEq, Repr, Inhabited

/-- Sample.__init__: np.array(parameters).flatten() is the identity on a 1-D
list of reals; a non-list result is wrapped in a singleton list. -/
def Sample.init (parameters : List ℚ) (simulation_name : String)
    (result : ResultArg) (result_name : String) : Sample :=
  let result_to_store : List ResVal :=
    match result with
    | .pylist rs => rs
    | .nparray qs => [ResVal.arr qs]
    | .scalar q => [ResVal.num q]
  ⟨parameters, simulation_name, result_to_store, result_name⟩

/-- self.parameters_size = self.parameters.shape[0]. -/
def Sample.parameters_size (s : Sample) : ℕ := s.parameters.length

/-- self.result_size = len(self.result). -/
def Sample.result_size (s : Sample) : ℕ := s.result.length

/-- data_collection.py, class DataCollection.  The attributes sample_num
(kept equal to len(self.sample) by add_sample) and current_sample (an alias
of sample[-1]) are derived views of the sample list. -/
structure DataCollection where
  sample : List Sample
deriving DecidableEq, Repr

def DataCollection.empty : DataCollection := ⟨[]⟩

def DataCollection.sample_num (dc : DataCollection) : ℕ := dc.sample.length

/-- DataCollection.add_sample: appends and returns the index of the added
sample together with the updated collection. -/
def DataCollection.add_sample (dc : DataCollection) (parameters : List ℚ)
    (simulation_name : String) (result : ResultArg) (result_name : String) :
    ℕ × DataCollection :=
  let sample := dc.sample ++ [Sample.init parameters simulation_name result result_name]
  (sample.length - 1, ⟨sample⟩)

/-- Scan of DataCollection.is_sample: the loop body checks the length, the
element-wise equality of the parameters and the identity of the result name
tag (the same string object flows from the study into the store, so the
Python is-identity test is equality here), and breaks at the first match. -/
def is_sample_scan (parameters : List ℚ) (result_name : String) :
    List Sample → ℕ → Bool × Option ℕ
  | [], _ => (false, none)
  | s :: rest, i =>
    if parameters.length = s.parameters_size ∧ s.parameters = parameters ∧
        s.result_name = result_name then
      (true, some i)
    else
      is_sample_scan parameters result_name rest (i + 1)

/-- DataCollection.is_sample (data_collection.py lines 159-170). -/
def DataCollection.is_sample (dc : DataCollection) (parameters : List ℚ)
    (result_name : String) : Bool × Option ℕ :=
  is_sample_scan parameters result_name dc.sample 0

/-! ### numpy and Python value helpers used by filter_simulation -/

/-- Python indexing of a list: an out-of-range index raises IndexError. -/
def npGet {α : Type} (l : List α) (i : ℕ) : Except String α :=
  match l.get? i with
  | some x => Except.ok x
  | none => Except.error "IndexError: index out of bounds"

/-- The truth value of (arr == None) for a numpy array arr: the comparison is
element-wise, and bool() of the resulting array is defined only when it has
exactly one element, otherwise numpy raises ValueError. -/
def npArrEqNoneTruthy (xs : List (Option ℚ)) : Except String Bool :=
  if xs.length = 1 then
    Except.ok (decide (xs.headD none = none))
  else
    Except.error "ValueError: The truth value of an array with more than one element is ambiguous"

/-- The truth value of (b == None) where b is either Python None or a numpy
array obtained from np.array(bound). -/
def boundIsNoneTruthy : Option (List (Option ℚ)) → Except String Bool
  | none => Except.ok true
  | some xs => npArrEqNoneTruthy xs

/-- The result component as numpy sees it after np.array: a stored float
becomes a 0-d array, a stored array stays an array. -/
def ResVal.toVals : ResVal → List ℚ
  | .num q => [q]
  | .arr qs => qs

/-- Reading every entry of an object-dtype bound array as a float; an entry
that is None raises TypeError as soon as it takes part in an order
comparison. -/
def optsToVals (xs : List (Option ℚ)) : Except String (List ℚ) :=
  xs.mapM (fun x => match x with
    | some v => Except.ok v
    | none => Except.error "TypeError: ordering not supported between float and NoneType")

/-- numpy broadcasting of two 1-D shapes for an element-wise comparison. -/
def npBroadcastPairs (as_ bs : List ℚ) : Except String (List (ℚ × ℚ)) :=
  if as_.length = bs.length then Except.ok (as_.zip bs)
  else if bs.length = 1 then Except.ok (as_.map (fun a => (a, bs.headD 0)))
  else if as_.length = 1 then Except.ok (bs.map (fun b => (as_.headD 0, b)))
  else Except.error "ValueError: operands could not be broadcast together"

/-- (res > lb).all() for a result value and a whole bound array. -/
def npGtAllArr (rv : ResVal) (xs : List (Option ℚ)) : Except String Bool := do
  let bs ← optsToVals xs
  let pairs ← npBroadcastPairs rv.toVals bs
  pure (decide (∀ p ∈ pairs, p.2 < p.1))

/-- (res < ub).all() for a result value and a whole bound array. -/
def npLtAllArr (rv : ResVal) (xs : List (Option ℚ)) : Except String Bool := do
  let bs ← optsToVals xs
  let pairs ← npBroadcastPairs rv.toVals bs
  pure (decide (∀ p ∈ pairs, p.1 < p.2))

/-- (res > b).all() for a single bound entry taken out of an object array;
a None entry raises TypeError when compared. -/
def scalarGtAll (rv : ResVal) (b : Option ℚ) : Except String Bool :=
  match b with
  | none => Except.error "TypeError: ordering not supported between float and NoneType"
  | some bv => Except.ok (decide (∀ q ∈ rv.toVals, bv < q))

/-- (res < b).all() for a single bound entry taken out of an object array. -/
def scalarLtAll (rv : ResVal) (b : Option ℚ) : Except String Bool :=
  match b with
  | none => Except.error "TypeError: ordering not supported between float and NoneType"
  | some bv => Except.ok (decide (∀ q ∈ rv.toVals, q < bv))

/-- The result_index argument of filter_simulation: a Python int or a list. -/
inductive ResultIndexArg where
  | int (i : ℕ)
  | list (idxs : List ℕ)
deriving DecidableEq, Repr

/-- The simulation_name argument of filter_simulation: the Python in operator
is substring membership when the argument is a string (the call in
dimensionality_reduction passes the single string "sampling") and list
membership when it is a list. -/
inductive PyStrs where
  | str (s : String)
  | list (ss : List String)
deriving DecidableEq, Repr

/-- Contiguous substring test on character lists (needle, haystack). -/
def charsSub : List Char → List Char → Bool
  | needle, [] => needle.isEmpty
  | needle, c :: t => needle.isPrefixOf (c :: t) || charsSub needle t

def pyInStrs (x : String) : PyStrs → Bool
  | .str s => charsSub x.data s.data
  | .list ss => ss.contains x

/-- data_collection.py lines 134-135, the bound test of the int branch:
(lb == None or (res > lb).all()) and (ub == None or (res < ub).all()),
with Python short-circuit evaluation. -/
def intBranchCheck (rv : ResVal) (lb ub : Option (List (Option ℚ))) :
    Except String Bool := do
  let lbNone ← boundIsNoneTruthy lb
  let lowerOk ← if lbNone then pure true else npGtAllArr rv (lb.getD [])
  if lowerOk then do
    let ubNone ← boundIsNoneTruthy ub
    if ubNone then pure true else npLtAllArr rv (ub.getD [])
  else
    pure false

/-- data_collection.py line 145, the lower-bound disjunction of the list
branch: lb == None or lb[res_idx] == None or (res > lb[res_idx]).all(). -/
def listLowerCheck (rv : ResVal) (lb : Option (List (Option ℚ)))
    (res_idx : ℕ) : Except String Bool :=
  match lb with
  | none => Except.ok true
  | some lxs => do
    let isNone ← npArrEqNoneTruthy lxs
    if isNone then pure true
    else do
      let entry ← npGet lxs res_idx
      if entry = none then pure true else scalarGtAll rv entry

/-- data_collection.py line 146, the upper-bound disjunction of the list
branch exactly as written: ub == None or lb[res_idx] == None or
(res < ub[res_idx]).all().  Note that the middle disjunct reads the LOWER
bound array (and subscripts it even when lower_bound is Python None). -/
def listUpperCheck (rv : ResVal) (lb ub : Option (List (Option ℚ)))
    (res_idx : ℕ) : Except String Bool :=
  match ub with
  | none => Except.ok true
  | some uxs => do
    let isNone ← npArrEqNoneTruthy uxs
    if isNone then pure true
    else do
      let lentry ← match lb with
        | none => Except.error "TypeError: NoneType object is not subscriptable"
        | some lxs => npGet lxs res_idx
      if lentry = none then pure true
      else do
        let uentry ← npGet uxs res_idx
        scalarLtAll rv uentry

/-- data_collection.py lines 142-152, the to_include loop of the list branch:
for each position res_idx below len(result_index) the code reads
result[res_idx] (the loop position itself, not result_index[res_idx]) and
conjoins the two bound disjunctions with short-circuit and. -/
def listBranchCheck (result : List ResVal) (result_index : List ℕ)
    (lb ub : Option (List (Option ℚ))) : Except String Bool := do
  let to_include ← (List.range result_index.length).mapM (fun res_idx => do
    let rv ← npGet result res_idx
    let lowerOk ← listLowerCheck rv lb res_idx
    if lowerOk then listUpperCheck rv lb ub res_idx else pure false)
  pure (to_include.all id)

/-- One filtered row: the parameters, the result list and the index. -/
abbrev FilterRow := List ℚ × List ResVal × ℕ

/-- The sample loop of DataCollection.filter_simulation.  For every sample
passing the name and stage test the code first evaluates
res = np.array(self.sample[i].result[result_index]) (line 132); when
result_index is a list this subscripts a Python list with a list and raises
TypeError, so the list branch behind it (lines 140-155) is unreachable. -/
def filter_scan (result_name : String) (result_index : ResultIndexArg)
    (simulation_name : Option PyStrs) (lb ub : Option (List (Option ℚ))) :
    List Sample → ℕ → Except String (List FilterRow)
  | [], _ => Except.ok []
  | s :: rest, i =>
    if s.result_name == result_name &&
        (match simulation_name with
         | none => true
         | some ps => pyInStrs s.simulation_name ps) then do
      let keep ←
        match result_index with
        | .int ri => do
          let rv ← npGet s.result ri
          intBranchCheck rv lb ub
        | .list idxs => do
          let _rv ← (Except.error
            "TypeError: list indices must be integers or slices, not list" :
            Except String ResVal)
          listBranchCheck s.result idxs lb ub
      let tail ← filter_scan result_name result_index simulation_name lb ub rest (i + 1)
      pure (if keep then (s.parameters, s.result, i) :: tail else tail)
    else
      filter_scan result_name result_index simulation_name lb ub rest (i + 1)

/-- DataCollection.filter_simulation (data_collection.py lines 114-157):
returns the filtered parameters, results and indices. -/
def DataCollection.filter_simulation (dc : DataCollection)
    (result_name : String) (result_index : ResultIndexArg)
    (simulation_name : Option PyStrs) (lower_bound upper_bound : Option (List (Option ℚ))) :
    Except String (List (List ℚ) × List (List ResVal) × List ℕ) := do
  let rows ← filter_scan result_name result_index simulation_name
    lower_bound upper_bound dc.sample 0
  pure (rows.map (fun r => r.1), rows.map (fun r => r.2.1), rows.map (fun r => r.2.2))

/-! ### Tabular export and import (data_collection.py lines 172-197)

A cell of the comma-delimited file.  csv.writer stringifies each Python
object: a string cell keeps its text (the csv quoting round-trips it), a
float cell is written as a decimal numeral that np.float64 parses back to
the same value (Python float repr is faithful, which the rational embedding
models by keeping the value), and an ndarray cell is written as the numpy
display string, which np.float64 cannot parse back. -/
inductive CsvCell where
  | str (s : String)
  | num (q : ℚ)
  | arrRepr (qs : List ℚ)
deriving DecidableEq, Repr

def squote : Char := Char.ofNat 39

def dquote : Char := Char.ofNat 34

def backslashChar : Char := Char.ofNat 92

/-- The quote Python repr picks for a string: a single quote, or a double
quote when the text contains a single quote and no double quote. -/
def pyReprQuote (s : String) : Char :=
  if squote ∈ s.data ∧ ¬ dquote ∈ s.data then dquote else squote

/-- Lowercase hex digit, as Python repr prints escape codes. -/
def hexDigit (n : ℕ) : Char :=
  if n < 10 then Char.ofNat (48 + n) else Char.ofNat (87 + n)

/-- Two lowercase hex digits of a byte value. -/
def hexPair (n : ℕ) : List Char :=
  [hexDigit (n / 16), hexDigit (n % 16)]

/-- Python repr escaping of one character under the chosen quote: the
backslash and the quote are backslash-escaped, tab, newline and carriage
return get their short escapes, and the remaining ASCII control characters
and delete are printed as backslash-x followed by two hex digits.
Characters at and above 0x80 are kept literally; real repr escapes the
non-printable ones among them by the Unicode database, which the model does
not carry, so the round-trip domain below is restricted to printable
ASCII. -/
def pyReprEscapeChar (quote c : Char) : List Char :=
  if c = backslashChar then [backslashChar, backslashChar]
  else if c = quote then [backslashChar, c]
  else if c = Char.ofNat 9 then [backslashChar, Char.ofNat 116]
  else if c = Char.ofNat 10 then [backslashChar, Char.ofNat 110]
  else if c = Char.ofNat 13 then [backslashChar, Char.ofNat 114]
  else if c.toNat < 32 ∨ c.toNat = 127 then
    [backslashChar, Char.ofNat 120] ++ hexPair c.toNat
  else [c]

/-- Python repr of a string, as used by str on a list of strings. -/
def pyRepr (s : String) : List Char :=
  pyReprQuote s :: s.data.flatMap (pyReprEscapeChar (pyReprQuote s)) ++ [pyReprQuote s]

/-- load_from_csv extracts the two tags as str(row[k:k+1])[2:-2]: the text of
the singleton list display with the leading bracket-quote pair and the
trailing quote-bracket pair removed. -/
def pyListReprStrip (s : String) : String :=
  String.mk ((([Char.ofNat 91] ++ pyRepr s ++ [Char.ofNat 93]).drop 2).take
    (([Char.ofNat 91] ++ pyRepr s ++ [Char.ofNat 93]).length - 4))

/-- How the tag columns read back through str([cell])[2:-2].  Exported files
always hold string cells there; on a numeric cell the strip is the identity
on the printed numeral, modelled by the printed rational. -/
def CsvCell.tagRead : CsvCell → String
  | .str s => pyListReprStrip s
  | .num q => toString q
  | .arrRepr qs => toString qs

/-- np.float64 applied to a cell of the file: numeric text parses back to
its value, other text raises ValueError. -/
def npFloat64Cell : CsvCell → Except String ℚ
  | .num q => Except.ok q
  | .str _ => Except.error "ValueError: could not convert string to float"
  | .arrRepr _ => Except.error "ValueError: could not convert string to float"

/-- The cell export_to_csv writes for one stored result entry. -/
def ResVal.toCell : ResVal → CsvCell
  | .num q => CsvCell.num q
  | .arr qs => CsvCell.arrRepr qs

/-- One row of export_to_csv (data_collection.py lines 191-197):
simulation name, result name, the parameter values, the result entries. -/
def Sample.export_row (s : Sample) : List CsvCell :=
  [CsvCell.str s.simulation_name, CsvCell.str s.result_name]
    ++ s.parameters.map CsvCell.num ++ s.result.map ResVal.toCell

/-- DataCollection.export_to_csv: one row per sample, in order (the loop
runs over range(sample_num) with sample_num = len(sample)). -/
def DataCollection.export_to_csv (dc : DataCollection) : List (List CsvCell) :=
  dc.sample.map Sample.export_row

/-- One row of DataCollection.load_from_csv (lines 178-183): the first two
columns are the tags (str(row[0:1])[2:-2] of an empty slice gives the empty
string), the next parameters_size columns parse as the parameters, all
remaining columns parse as one numpy result array, and the row is added with
that ARRAY as the result argument, which Sample.__init__ wraps in a
singleton list. -/
def load_row (parameters_size : ℕ) (dc : DataCollection) (row : List CsvCell) :
    Except String DataCollection := do
  let simulation_name := match row.get? 0 with
    | some c => c.tagRead
    | none => ""
  let result_name := match row.get? 1 with
    | some c => c.tagRead
    | none => ""
  let params ← ((row.drop 2).take parameters_size).mapM npFloat64Cell
  let res ← (row.drop (parameters_size + 2)).mapM npFloat64Cell
  pure (dc.add_sample params simulation_name (ResultArg.nparray res) result_name).2

/-- DataCollection.load_from_csv: folds the rows into the collection. -/
def DataCollection.load_from_csv (dc : DataCollection) (parameters_size : ℕ)
    (rows : List (List CsvCell)) : Except String DataCollection :=
  rows.foldlM (load_row parameters_size) dc

/-- The tags on which Python repr escapes nothing, so that the
str(row[0:1])[2:-2] strip of load_from_csv is the identity: every character
is printable ASCII, no backslash occurs, and not both quote characters
occur.  A tag with a backslash, a control character or both quotes gets
escape sequences inserted and does not round-trip; a non-ASCII tag is left
outside the verified domain because repr escapes it by Unicode
printability, which the embedding does not carry. -/
def benignTag (s : String) : Bool :=
  decide ((∀ c ∈ s.data, 32 ≤ c.toNat ∧ c.toNat ≤ 126) ∧
    ¬ backslashChar ∈ s.data ∧ ¬ (squote ∈ s.data ∧ dquote ∈ s.data))

/-- A result entry that is a stored scalar. -/
def ResVal.isNum : ResVal → Bool
  | .num _ => true
  | .arr _ => false

/-- The scalar value of a result entry, meaningful on scalar entries. -/
def ResVal.numVal : ResVal → ℚ
  | .num q => q
  | .arr _ => 0

/-! ### Dimensionality reduction (dimensionality/pca.py)

A trained model in the state after _run_pca: the fitted StandardScaler
(mean, and per-dimension scale, all ones when with_std = False) and the
fitted PCA (mean and component rows).  n_components is the realized
component count, equal to the number of component rows. -/
structure TrainedPCA where
  n_components : ℕ
  components : List (List ℚ)
  pca_mean : List ℚ
  scaler_mean : List ℚ
  scaler_scale : List ℚ
deriving DecidableEq, Repr

/-- Sum of the component rows weighted by the reduced coordinates,
that is the matrix product data @ components_ for one data point. -/
def linComb (r : List ℚ) (components : List (List ℚ)) (n_features : ℕ) : List ℚ :=
  (List.zipWith (fun rk row => row.map (fun x => rk * x)) r components).foldl
    (fun acc v => List.zipWith (fun a b => a + b) acc v)
    (List.replicate n_features 0)

/-- _invert_pca for one point: sklearn PCA.inverse_transform is
data @ components_ + mean_, and StandardScaler.inverse_transform is
x * scale_ + mean_. -/
def TrainedPCA.invert_model (m : TrainedPCA) (r : List ℚ) : List ℚ :=
  let unscaled := List.zipWith (fun a b => a + b)
    (linComb r m.components m.pca_mean.length) m.pca_mean
  List.zipWith (fun a b => a + b)
    (List.zipWith (fun a b => a * b) unscaled m.scaler_scale) m.scaler_mean

/-- Full-space Manhattan distance np.sum(np.abs(a - b)). -/
def manhattan (a b : List ℚ) : ℚ :=
  ((List.zipWith (fun x y => x - y) a b).map (fun d => |d|)).sum

/-- np.linspace(start, stop, num) with the default endpoint=True; a negative
sample count raises ValueError.  For num = 1 the single sample is start. -/
def linspace (start stop : ℚ) (num : ℤ) : Except String (List ℚ) :=
  if num < 0 then
    Except.error "ValueError: Number of samples must be non-negative"
  else
    Except.ok ((List.range num.toNat).map
      (fun (i : ℕ) => start + (stop - start) * (i : ℚ) / ((num : ℚ) - 1)))

/-- The distance argument of subspace_mesh as the Python value it is:
None, a scalar, a numpy array, or a plain list. -/
inductive DistArg where
  | pynone
  | scalar (q : ℚ)
  | nparray (qs : List ℚ)
  | pylist (qs : List ℚ)
deriving DecidableEq, Repr

/-- The n_points argument of subspace_mesh (integer-valued). -/
inductive NPointsArg where
  | pynone
  | scalar (k : ℤ)
  | nparray (ks : List ℤ)
  | pylist (ks : List ℤ)
deriving DecidableEq, Repr

/-- The truth value of (distance == None): True for None, False for a
scalar or a plain list, and for a numpy array the element-wise comparison
whose bool() numpy only defines for a single element. -/
def DistArg.eqNoneTruthy : DistArg → Except String Bool
  | .pynone => Except.ok true
  | .scalar _ => Except.ok false
  | .pylist _ => Except.ok false
  | .nparray qs =>
    if qs.length = 1 then Except.ok false
    else Except.error "ValueError: The truth value of an array with more than one element is ambiguous"

/-- The truth value of (n_points == None), as for the distance argument. -/
def NPointsArg.eqNoneTruthy : NPointsArg → Except String Bool
  | .pynone => Except.ok true
  | .scalar _ => Except.ok false
  | .pylist _ => Except.ok false
  | .nparray ks =>
    if ks.length = 1 then Except.ok false
    else Except.error "ValueError: The truth value of an array with more than one element is ambiguous"

/-- np.ones(n) * v for a plain list v, with numpy 1-D broadcasting. -/
def npOnesMulQ (n : ℕ) (qs : List ℚ) : Except String (List ℚ) :=
  if qs.length = n then Except.ok qs
  else if qs.length = 1 then Except.ok (List.replicate n (qs.headD 0))
  else if n = 1 then Except.ok qs
  else Except.error "ValueError: operands could not be broadcast together"

/-- np.ones(n, dtype=int) * v for a plain list of ints. -/
def npOnesMulZ (n : ℕ) (ks : List ℤ) : Except String (List ℤ) :=
  if ks.length = n then Except.ok ks
  else if ks.length = 1 then Except.ok (List.replicate n (ks.headD 0))
  else if n = 1 then Except.ok ks
  else Except.error "ValueError: operands could not be broadcast together"

/-- pca.py lines 161-168: the dist_vector derivation in distance mode. -/
def mkDistVector (n_components : ℕ) : DistArg → Except String (List ℚ)
  | .nparray qs =>
    if qs.length = 1 then Except.ok (List.replicate n_components (qs.headD 0))
    else Except.ok qs
  | .scalar q => Except.ok (List.replicate n_components q)
  | .pylist qs => npOnesMulQ n_components qs
  | .pynone => Except.error "TypeError: unsupported operand type for NoneType"

/-- pca.py lines 176-184: the n_points_vector derivation in count mode. -/
def mkNPointsVector (n_components : ℕ) : NPointsArg → Except String (List ℤ)
  | .nparray ks =>
    if ks.length = 1 then Except.ok (List.replicate n_components (ks.headD 0))
    else Except.ok ks
  | .scalar k => Except.ok (List.replicate n_components k)
  | .pylist ks => npOnesMulZ n_components ks
  | .pynone => Except.error "TypeError: unsupported operand type for NoneType"

/-- The two inverted boundary points of reduced axis i and their full-space
Manhattan distance (pca.py lines 205-212). -/
def axisFullDistance (m : TrainedPCA) (lbi ubi : ℚ) (i : ℕ) : ℚ :=
  manhattan
    (m.invert_model ((List.replicate m.n_components (0 : ℚ)).set i lbi))
    (m.invert_model ((List.replicate m.n_components (0 : ℚ)).set i ubi))

/-- The body of the per-axis loop of subspace_mesh (pca.py lines 204-225)
for axis i.  Returns the raw axis samples, the normalized axis samples, and
the values written into n_points_vector[i] and dist_vector[i].  The length
guard of the normalization is len(samp) > 0 as in the source, so a
single-sample axis reaches samp[1] and raises IndexError.  Rational division
by zero yields 0 where numpy yields inf or nan; no claim below evaluates
those branches. -/
def meshAxis (m : TrainedPCA) (lower_bound upper_bound : List ℚ)
    (flag_find_n_points : Bool) (dist_vector : List ℚ) (n_points_vector : List ℤ)
    (i : ℕ) : Except String (List ℚ × List ℚ × ℤ × ℚ) := do
  let lbi ← npGet lower_bound i
  let ubi ← npGet upper_bound i
  let ab_dist := axisFullDistance m lbi ubi i
  let nd : ℤ × ℚ ←
    if flag_find_n_points then do
      let d ← npGet dist_vector i
      pure (⌈ab_dist / d⌉ + 1, d)
    else do
      let n ← npGet n_points_vector i
      pure (n, ab_dist / ((n : ℚ) - 1))
  let samp ← linspace lbi ubi nd.1
  if samp.length > 0 then do
    let s1 ← npGet samp 1
    let s0 ← npGet samp 0
    let projected_dist := s1 - s0
    pure (samp, samp.map (fun x => x / projected_dist * nd.2), nd.1, nd.2)
  else
    pure (samp, samp, nd.1, nd.2)

/-- itertools.product of the per-axis sample lists, axis 0 varying
slowest. -/
def cartProd : List (List ℚ) → List (List ℚ)
  | [] => [[]]
  | axis :: rest => axis.flatMap (fun x => (cartProd rest).map (fun t => x :: t))

/-- DimensionalityReductionPCA.subspace_mesh (pca.py lines 115-233) on a
trained model.  The boundaries argument is taken already unpacked into its
lower and upper rows: the source tests boundaries != None, True for the
list-of-two-rows form used here, and otherwise falls back to plus or minus
five standard deviations of the projected training data, a branch that
involves a real square root and is not used by any claim.  Everything else
follows the source: the two == None truthiness gates, the vector
derivations, the per-axis loop, the Cartesian products and the final
inversion of the projected grid. -/
def TrainedPCA.subspace_mesh (m : TrainedPCA) (distance : DistArg)
    (n_points : NPointsArg) (lower_bound upper_bound : List ℚ) :
    Except String (List (List ℚ) × List (List ℚ) × List (List ℚ)) := do
  let nIsNone ← n_points.eqNoneTruthy
  let dvd : List ℚ × List ℤ × Bool ←
    if nIsNone then do
      let dIsNone ← distance.eqNoneTruthy
      if dIsNone then
        throw "ValueError: Subspace meshing cannot be done, both distance and number of points are not specified"
      else do
        let dv ← mkDistVector m.n_components distance
        pure (dv, List.replicate m.n_components (0 : ℤ), true)
    else do
      let nv ← mkNPointsVector m.n_components n_points
      pure (List.replicate m.n_components (0 : ℚ), nv, false)
  let axes ← (List.range m.n_components).mapM
    (meshAxis m lower_bound upper_bound dvd.2.2 dvd.1 dvd.2.1)
  let mapping_lists := axes.map (fun a => a.1)
  let mapping_lists_normalized := axes.map (fun a => a.2.1)
  let mapping_projected_grid := cartProd mapping_lists
  let mapping_normalized_projected_grid := cartProd mapping_lists_normalized
  let mapping_grid := mapping_projected_grid.map m.invert_model
  pure (mapping_grid, mapping_projected_grid, mapping_normalized_projected_grid)

/-! ### The mapping orchestrator (mapping.py) -/

/-- A non-sentinel value returned by Study.run: a scalar or a result list. -/
inductive PyRes where
  | num (q : ℚ)
  | vals (rs : List ResVal)
deriving DecidableEq, Repr

/-- What Study.run returns as its result: none models the Python False
failure sentinel. -/
abbrev StudyRes := Option PyRes

/-- Python res != False: False compares equal to False and to the number 0,
and unequal to every nonzero number and to every list. -/
def pyNeFalse : StudyRes → Bool
  | none => false
  | some (.num q) => decide (q ≠ 0)
  | some (.vals _) => true

/-- Python res == False. -/
def pyEqFalse : StudyRes → Bool
  | none => true
  | some (.num q) => decide (q = 0)
  | some (.vals _) => false

/-- The result argument run_study passes to add_sample (only reached behind
the res != False guard, so the sentinel arm is never used there). -/
def StudyRes.toResultArg : StudyRes → ResultArg
  | none => ResultArg.pylist []
  | some (.num q) => ResultArg.scalar q
  | some (.vals rs) => ResultArg.pylist rs

/-- utilities/map.py, class Map: one snapshot of a completed sweep.  The
grid of full-space points and the results are reconstructed from sim_idx by
the maps property, so the snapshot itself stores the model, the training
indices, the two reduced-space grids and the database indices. -/
structure MapObj where
  model : TrainedPCA
  training_data_idx : List ℕ
  projected_grid : List (List ℚ)
  normalized_projected_grid : List (List ℚ)
  sim_idx : List (Option ℕ)
deriving DecidableEq, Repr

/-- The orchestrator state touched by the claims: the sample database, the
list behind the maps property, the dr_training_index service list and the
two sampler counters of the _service container.  study_calls and
sampler_calls instrument how often the external study and sampler oracles
have been invoked. -/
structure SMState where
  data : DataCollection
  maps : List MapObj
  dr_training_index : List ℕ
  sampler_iteration : ℕ
  sampler_results_num : ℕ
  study_calls : ℕ
  sampler_calls : ℕ
deriving DecidableEq, Repr

def initState : SMState := ⟨DataCollection.empty, [], [], 0, 0, 0, 0⟩

/-- SpaceMapping.run_study (mapping.py lines 121-169).  The study oracle
maps a parameter list to the result and the used parameters.  For a
parameter list of reals the guard (np.array(param == None)).any() is False,
so the stored-sample lookup runs.  The save_data call on autosave is file
output only and does not touch the modelled state. -/
def run_study (study : List ℚ → StudyRes × List ℚ) (fom_name : String)
    (st : SMState) (param : List ℚ) (name : String) (force_run : Bool) :
    StudyRes × Option ℕ × SMState :=
  if !(st.data.is_sample param fom_name).1 || force_run then
    if pyNeFalse (study param).1 then
      ((study param).1,
       some (st.data.add_sample (study param).2 name (study param).1.toResultArg fom_name).1,
       { st with
         study_calls := st.study_calls + 1,
         data := (st.data.add_sample (study param).2 name (study param).1.toResultArg fom_name).2 })
    else
      ((study param).1, (st.data.is_sample param fom_name).2,
       { st with study_calls := st.study_calls + 1 })
  else
    (some (.vals (match (st.data.is_sample param fom_name).2 with
      | some i => (st.data.sample.getD i default).result
      | none => [])),
     (st.data.is_sample param fom_name).2, st)

/-- The evaluation loop of SpaceMapping.subspace_sweep (mapping.py lines
271-278): each grid point goes through run_study under the sweeping stage;
a res == False raises, which the surrounding except catches, so the loop
result is either the abort state or the collected database indices. -/
def sweep_loop (study : List ℚ → StudyRes × List ℚ) (fom_name : String) :
    List (List ℚ) → SMState → List (Option ℕ) → Except SMState (List (Option ℕ) × SMState)
  | [], st, acc => Except.ok (acc.reverse, st)
  | param :: rest, st, acc =>
    let out := run_study study fom_name st param "sweeping" false
    if pyEqFalse out.1 then Except.error out.2.2
    else sweep_loop study fom_name rest out.2.2 (out.2.1 :: acc)

/-- SpaceMapping.subspace_sweep (mapping.py lines 256-299) on a provided,
already unpacked grid triple (when grid is None the source generates the
triple with subspace_mesh and continues identically).  dr is the
orchestrator reduction model stored in the Map snapshot, response models the
interactive answer read when go is False.  After a successful loop the Map
is appended through the maps setter; the statement returning
len(self.maps) - 1 sits inside the if self.set.autosave block, so without
autosave the function falls off the try block and returns None. -/
def subspace_sweep (study : List ℚ → StudyRes × List ℚ) (fom_name : String)
    (dr : TrainedPCA) (autosave : Bool) (grid : List (List ℚ))
    (projected_grid normalized_projected_grid : List (List ℚ))
    (go : Bool) (response : String) (st : SMState) : Option ℕ × SMState :=
  if go = false ∧ response ≠ "y" then (none, st)
  else
    match sweep_loop study fom_name grid st [] with
    | Except.error st1 => (none, st1)
    | Except.ok (mapping_idx, st1) =>
      let map_obj : MapObj :=
        ⟨dr, st1.dr_training_index, projected_grid, normalized_projected_grid, mapping_idx⟩
      let st2 := { st1 with maps := st1.maps ++ [map_obj] }
      if autosave then (some (st2.maps.length - 1), st2)
      else (none, st2)

/-- What one call of self.sampler.run() hands back to run_sampling: the
result list, the parallel parameter list, the good-result flag and the
error flag. -/
structure SamplerOut where
  res : List ResultArg
  used_param : List (List ℚ)
  good_result : Bool
  error_flag : Bool

/-- The storage loop of run_sampling (mapping.py lines 207-211): for every
position of the result list the guard res != False compares the whole list,
which is always unequal to False, and the pair is added under the sampling
stage. -/
def addSamplesLoop (fom_name : String) (res : List ResultArg)
    (used_param : List (List ℚ)) (dc : DataCollection) : DataCollection :=
  (List.range res.length).foldl
    (fun dc i =>
      (dc.add_sample (used_param.getD i []) "sampling"
        (res.getD i (ResultArg.pylist [])) fom_name).2)
    dc

/-- The while loop of SpaceMapping.run_sampling (mapping.py lines 187-219),
fuel-indexed: none means the fuel ran out with the loop still running.  The
sampler oracle gives the outcome of the n-th sampler.run() call.  The error
branch executes the source statement error-num =+ 1, which Python parses as
an assignment of positive 1, so the counter is set to 1, not incremented;
the success branch resets it to 0, advances the iteration counter, stores
the returned pairs and counts a good result. -/
def run_sampling_loop (sampler : ℕ → SamplerOut) (fom_name : String)
    (max_results : ℕ) (max_iter : ℕ∞) :
    ℕ → SMState → ℕ → Option (SMState × ℕ)
  | 0, _, _ => none
  | fuel + 1, st, error_num =>
    if (st.sampler_iteration : ℕ∞) < max_iter ∧
        st.sampler_results_num < max_results ∧ error_num < 6 then
      if (sampler st.sampler_calls).error_flag then
        run_sampling_loop sampler fom_name max_results max_iter fuel
          { st with sampler_calls := st.sampler_calls + 1 } 1
      else
        run_sampling_loop sampler fom_name max_results max_iter fuel
          { st with
            sampler_calls := st.sampler_calls + 1,
            sampler_iteration := st.sampler_iteration + 1,
            data := addSamplesLoop fom_name (sampler st.sampler_calls).res
              (sampler st.sampler_calls).used_param st.data,
            sampler_results_num := st.sampler_results_num +
              (if (sampler st.sampler_calls).good_result then 1 else 0) } 0
    else
      some (st, error_num)

/-- SpaceMapping.run_sampling (mapping.py lines 177-226): optional counter
reset, the while loop, and the final comparison of the accepted-result
counter against max_results. -/
def run_sampling (sampler : ℕ → SamplerOut) (fom_name : String)
    (max_results : ℕ) (reset : Bool) (max_iter : ℕ∞) (fuel : ℕ)
    (st : SMState) : Option (Bool × SMState) :=
  match run_sampling_loop sampler fom_name max_results max_iter fuel
      (if reset then { st with sampler_iteration := 0, sampler_results_num := 0 } else st) 0 with
  | none => none
  | some (stF, _) => some (decide (max_results ≤ stF.sampler_results_num), stF)

/-- A sampler oracle whose every call reports a raised error, the shape
run_sampling sees when the underlying evaluator always raises. -/
def alwaysErrSampler : ℕ → SamplerOut := fun _ => ⟨[], [], false, true⟩

/-! ### Helper states and fixtures used by the concrete theorems -/

/-- A study oracle that succeeds on the parameter list [1] with the scalar
result 5 and returns the failure sentinel elsewhere. -/
def studyFailAfterOne : List ℚ → StudyRes × List ℚ :=
  fun p => if p = [1] then (some (.num 5), p) else (none, p)

/-- A study oracle that always succeeds with the scalar result 7. -/
def studyAlwaysOk : List ℚ → StudyRes × List ℚ :=
  fun p => (some (.num 7), p)

/-- A study oracle that always returns the scalar 0, which the res != False
guard of run_study cannot distinguish from the failure sentinel. -/
def studyZero : List ℚ → StudyRes × List ℚ :=
  fun p => (some (.num 0), p)

/-- A one-component trained model whose inversion is the identity on one
coordinate. -/
def pcaId1 : TrainedPCA := ⟨1, [[1]], [0], [0], [1]⟩

/-- A two-component trained model whose inversion is the identity on two
coordinates. -/
def pcaId2 : TrainedPCA := ⟨2, [[1, 0], [0, 1]], [0, 0], [0, 0], [1, 1]⟩

/-- A store holding one sampling-stage sample with the two-component result
(1/2, 1/2) under the result name fom. -/
def dcTwoComp : DataCollection :=
  (DataCollection.empty.add_sample [1] "sampling"
    (ResultArg.pylist [ResVal.num (1/2), ResVal.num (1/2)]) "fom").2

/-- A store holding one sample with a two-component scalar result, used for
the export round trip. -/
def dcExport : DataCollection :=
  (DataCollection.empty.add_sample [1] "sampling"
    (ResultArg.pylist [ResVal.num (1/2), ResVal.num (3/4)]) "fom").2

/-- The three-character stage tag a, backslash, b. -/
def tagBackslash : String := String.mk [Char.ofNat 97, backslashChar, Char.ofNat 98]

/-- The three-character stage tag a, newline, b. -/
def tagNewline : String := String.mk [Char.ofNat 97, Char.ofNat 10, Char.ofNat 98]

/-- The five-character stage tag a, single quote, b, double quote, c. -/
def tagBothQuotes : String :=
  String.mk [Char.ofNat 97, squote, Char.ofNat 98, dquote, Char.ofNat 99]

/-- A store holding one sample whose stage tag contains a backslash. -/
def dcBackslashTag : DataCollection :=
  (DataCollection.empty.add_sample [1] tagBackslash
    (ResultArg.pylist [ResVal.num 1]) "fom").2

/-- A store holding one sample whose stage tag contains a newline. -/
def dcNewlineTag : DataCollection :=
  (DataCollection.empty.add_sample [1] tagNewline
    (ResultArg.pylist [ResVal.num 1]) "fom").2

/-- A store holding one sample whose stage tag contains both quote
characters. -/
def dcBothQuotesTag : DataCollection :=
  (DataCollection.empty.add_sample [1] tagBothQuotes
    (ResultArg.pylist [ResVal.num 1]) "fom").2

/-- A store holding one sample whose result entry is an array (the shape a
previous import produces). -/
def dcArrResult : DataCollection :=
  (DataCollection.empty.add_sample [1] "sampling"
    (ResultArg.nparray [1/2, 3/4]) "fom").2

/-- Whether a Python call returned normally rather than raising. -/
def noRaise {α : Type} : Except String α → Bool
  | Except.ok _ => true
  | Except.error _ => false

/-- Every evaluation of the listed grid points through run_study under the
sweeping stage, processed in order from the given state, comes back unequal
to the failure sentinel. -/
def sweepOkPrefix (study : List ℚ → StudyRes × List ℚ) (fom_name : String) :
    List (List ℚ) → SMState → Bool
  | [], _ => true
  | p :: rest, st =>
    !(pyEqFalse (run_study study fom_name st p "sweeping" false).1) &&
      sweepOkPrefix study fom_name rest
        (run_study study fom_name st p "sweeping" false).2.2

/-- The state after processing the listed grid points in order through
run_study under the sweeping stage. -/
def sweepState (study : List ℚ → StudyRes × List ℚ) (fom_name : String) :
    List (List ℚ) → SMState → SMState
  | [], st => st
  | p :: rest, st =>
    sweepState study fom_name rest (run_study study fom_name st p "sweeping" false).2.2

end Spacemap

/-!
## Theorems

Claim theorems, their witnesses and counterexamples, and the helper lemmas
they build on.
-/

namespace Spacemap

/-- res != False and res == False are complementary on every study result. -/
theorem pyNeFalse_eq_not_pyEqFalse (r : StudyRes) : pyNeFalse r = !pyEqFalse r := by
  match r with
  | none => rfl
  | some (.num q) => simp [pyNeFalse, pyEqFalse]
  | some (.vals _) => rfl

/-- run_study never touches the maps list. -/
theorem run_study_maps (study : List ℚ → StudyRes × List ℚ) (fom_name : String)
    (st : SMState) (param : List ℚ) (name : String) (force_run : Bool) :
    (run_study study fom_name st param name force_run).2.2.maps = st.maps := by
  unfold run_study
  split
  · split <;> rfl
  · rfl

/-- A run_study call whose result compares equal to False leaves the sample
database unchanged. -/
theorem run_study_fail_data (study : List ℚ → StudyRes × List ℚ) (fom_name : String)
    (st : SMState) (param : List ℚ) (name : String) (force_run : Bool)
    (h : pyEqFalse (run_study study fom_name st param name force_run).1 = true) :
    (run_study study fom_name st param name force_run).2.2.data = st.data := by
  by_cases h1 : (!(st.data.is_sample param fom_name).1 || force_run) = true
  · have hres : (run_study study fom_name st param name force_run).1 = (study param).1 := by
      unfold run_study
      rw [if_pos h1]
      split <;> rfl
    rw [hres] at h
    have h2 : pyNeFalse (study param).1 = false := by
      rw [pyNeFalse_eq_not_pyEqFalse, h]
      rfl
    unfold run_study
    rw [if_pos h1, if_neg (by simp [h2])]
  · unfold run_study
    rw [if_neg h1]

/-- Processing a grid prefix through run_study never touches the maps list. -/
theorem sweepState_maps (study : List ℚ → StudyRes × List ℚ) (fom_name : String)
    (pre : List (List ℚ)) (st : SMState) :
    (sweepState study fom_name pre st).maps = st.maps := by
  induction pre generalizing st with
  | nil => rfl
  | cons p rest ih =>
    rw [sweepState, ih, run_study_maps]

/-- When every point of the prefix evaluates successfully and the next point
evaluates to the failure sentinel, the sweep loop aborts with the state
reached right after the failing evaluation. -/
theorem sweep_loop_fail (study : List ℚ → StudyRes × List ℚ) (fom_name : String)
    (pre : List (List ℚ)) (p : List ℚ) (post : List (List ℚ)) :
    ∀ (st : SMState) (acc : List (Option ℕ)),
    sweepOkPrefix study fom_name pre st = true →
    pyEqFalse (run_study study fom_name (sweepState study fom_name pre st) p
      "sweeping" false).1 = true →
    sweep_loop study fom_name (pre ++ p :: post) st acc =
      Except.error (run_study study fom_name (sweepState study fom_name pre st) p
        "sweeping" false).2.2 := by
  induction pre with
  | nil =>
    intro st acc _ hfail
    simp only [List.nil_append, sweepState] at hfail ⊢
    simp [sweep_loop, hfail]
  | cons q rest ih =>
    intro st acc hpre hfail
    rw [sweepOkPrefix, Bool.and_eq_true] at hpre
    simp only [List.cons_append, sweep_loop]
    rw [show (pyEqFalse (run_study study fom_name st q "sweeping" false).1) = false by
      simpa using hpre.1]
    exact ih _ _ hpre.2 hfail

/-- C1: in a sweep over a grid whose prefix evaluates successfully and whose
next point evaluates to the failure sentinel, subspace_sweep returns None,
the maps sequence is unchanged (no Map snapshot is committed), and the
sample store is exactly the store produced by the successful prefix
evaluations, which are not rolled back. -/
theorem subspace_sweep_all_or_nothing
    (study : List ℚ → StudyRes × List ℚ) (fom_name : String) (dr : TrainedPCA)
    (autosave : Bool) (pre : List (List ℚ)) (p : List ℚ) (post : List (List ℚ))
    (projected_grid normalized_projected_grid : List (List ℚ))
    (go : Bool) (response : String) (st : SMState)
    (hgo : go = true ∨ response = "y")
    (hpre : sweepOkPrefix study fom_name pre st = true)
    (hfail : pyEqFalse (run_study study fom_name (sweepState study fom_name pre st) p
      "sweeping" false).1 = true) :
    (subspace_sweep study fom_name dr autosave (pre ++ p :: post) projected_grid
        normalized_projected_grid go response st).1 = none ∧
    (subspace_sweep study fom_name dr autosave (pre ++ p :: post) projected_grid
        normalized_projected_grid go response st).2.maps = st.maps ∧
    (subspace_sweep study fom_name dr autosave (pre ++ p :: post) projected_grid
        normalized_projected_grid go response st).2.data =
      (sweepState study fom_name pre st).data := by
  have hgate : ¬(go = false ∧ response ≠ "y") := by
    rcases hgo with h | h <;> simp [h]
  have hloop := sweep_loop_fail study fom_name pre p post st [] hpre hfail
  unfold subspace_sweep
  rw [if_neg hgate, hloop]
  refine ⟨rfl, ?_, ?_⟩
  · show (run_study study fom_name (sweepState study fom_name pre st) p
      "sweeping" false).2.2.maps = st.maps
    rw [run_study_maps, sweepState_maps]
  · exact run_study_fail_data study fom_name (sweepState study fom_name pre st) p
      "sweeping" false hfail

/-- Witness for the all-or-nothing sweep at a concrete three-point grid
whose second point fails: the first successful evaluation stays stored. -/
theorem subspace_sweep_all_or_nothing_witness :
    (subspace_sweep studyFailAfterOne "fom" pcaId1 true [[1], [2], [3]] [] [] true "" initState).1 = none ∧
    (subspace_sweep studyFailAfterOne "fom" pcaId1 true [[1], [2], [3]] [] [] true "" initState).2.maps = initState.maps ∧
    (subspace_sweep studyFailAfterOne "fom" pcaId1 true [[1], [2], [3]] [] [] true "" initState).2.data =
      (sweepState studyFailAfterOne "fom" [[1]] initState).data :=
  subspace_sweep_all_or_nothing studyFailAfterOne "fom" pcaId1 true
    [[1]] [2] [[3]] [] [] true "" initState (Or.inl rfl) (by decide) (by decide)

/-- C2: filtering with several selected result components and per-component
bound lists does not filter at all: on a store holding a matching
two-component sample, the call with result_index [0, 1],
lower bounds [1/10, None] and upper bounds [None, 9/10] raises TypeError at
res = np.array(sample.result[result_index]), because a Python list cannot be
subscripted with a list. -/
theorem filter_simulation_multi_component_raises :
    dcTwoComp.filter_simulation "fom" (ResultIndexArg.list [0, 1])
      (some (PyStrs.list ["sampling"]))
      (some [some (1/10), none]) (some [none, some (9/10)]) =
      Except.error "TypeError: list indices must be integers or slices, not list" := by
  decide

/-- The orchestrator sampling loop under a sampler whose every call reports
an error never terminates: the statement error-num =+ 1 pins the counter at
1, so the six-error budget in the loop guard is never reached. -/
theorem run_sampling_loop_err (sampler : ℕ → SamplerOut) (fom_name : String)
    (max_results : ℕ) (herr : ∀ k, (sampler k).error_flag = true) :
    ∀ (fuel : ℕ) (st : SMState) (e : ℕ),
      st.sampler_results_num < max_results → e < 6 →
      run_sampling_loop sampler fom_name max_results ⊤ fuel st e = none := by
  intro fuel
  induction fuel with
  | zero => intro st e _ _; rfl
  | succ n ih =>
    intro st e hr he
    rw [run_sampling_loop, if_pos ⟨ENat.coe_lt_top st.sampler_iteration, hr, he⟩,
      if_pos (herr st.sampler_calls)]
    exact ih { st with sampler_calls := st.sampler_calls + 1 } 1 hr (by norm_num)

/-- C3: against a sampler whose every iteration fails, run_sampling never
terminates, for any amount of fuel: the failing branch executes
error-num =+ 1, an assignment of 1 rather than an increment, so the
consecutive-error counter never reaches the budget of 6 and no other loop
condition changes. -/
theorem run_sampling_error_budget_diverges (sampler : ℕ → SamplerOut)
    (fom_name : String) (max_results fuel : ℕ) (st : SMState)
    (herr : ∀ k, (sampler k).error_flag = true) (hm : 0 < max_results) :
    run_sampling sampler fom_name max_results true ⊤ fuel st = none := by
  unfold run_sampling
  rw [if_pos rfl, run_sampling_loop_err sampler fom_name max_results herr fuel
    { st with sampler_iteration := 0, sampler_results_num := 0 } 0 hm (by norm_num)]

/-- Witness for the diverging sampling loop: with the always-erroring
sampler, one requested result and fuel for 100 iterations, the loop is still
running. -/
theorem run_sampling_error_budget_diverges_witness :
    run_sampling alwaysErrSampler "fom" 1 true ⊤ 100 initState = none :=
  run_sampling_error_budget_diverges alwaysErrSampler "fom" 1 100 initState
    (fun _ => rfl) (by norm_num)

/-- C6: a fully successful sweep appends its Map snapshot in every case, but
returns the new index only when autosave is configured: with autosave off
the same call returns None even though the snapshot was appended, because
the return statement sits inside the autosave block. -/
theorem subspace_sweep_success_return_requires_autosave :
    (subspace_sweep studyAlwaysOk "fom" pcaId1 false [[1], [2]] [] [] true "" initState).1 = none ∧
    (subspace_sweep studyAlwaysOk "fom" pcaId1 false [[1], [2]] [] [] true "" initState).2.maps.length = 1 ∧
    (subspace_sweep studyAlwaysOk "fom" pcaId1 true [[1], [2]] [] [] true "" initState).1 = some 0 ∧
    (subspace_sweep studyAlwaysOk "fom" pcaId1 true [[1], [2]] [] [] true "" initState).2.maps.length = 1 := by
  decide

/-- C8: requesting a single point on an axis crashes subspace_mesh instead
of degenerating to the raw sample: the normalization guard is
len(samp) > 0 rather than > 1, so samp[1] raises IndexError on the
one-element sample list. -/
theorem subspace_mesh_one_point_axis_raises :
    pcaId1.subspace_mesh DistArg.pynone (NPointsArg.scalar 1) [0] [2] =
      Except.error "IndexError: index out of bounds" := by
  decide

/-- C9: the mesh arguments are usable as scalars but not as numpy vectors
with one value per reduced axis: on a two-component model both vector forms
raise ValueError at the == None guard, while the scalar forms return
normally. -/
theorem subspace_mesh_vector_argument_raises :
    pcaId2.subspace_mesh (DistArg.nparray [1, 1]) NPointsArg.pynone [0, 0] [1, 1] =
      Except.error "ValueError: The truth value of an array with more than one element is ambiguous" ∧
    pcaId2.subspace_mesh DistArg.pynone (NPointsArg.nparray [3, 3]) [0, 0] [1, 1] =
      Except.error "ValueError: The truth value of an array with more than one element is ambiguous" ∧
    noRaise (pcaId2.subspace_mesh (DistArg.scalar 1) NPointsArg.pynone [0, 0] [1, 1]) = true ∧
    noRaise (pcaId2.subspace_mesh DistArg.pynone (NPointsArg.scalar 3) [0, 0] [1, 1]) = true := by
  decide

/-- Appending to a store a sample that matches the queried parameters and
result name, when no earlier sample matches, makes the lookup find it at the
appended position. -/
theorem is_sample_scan_append_match (p : List ℚ) (fom : String) (s : Sample)
    (hs : p.length = s.parameters_size ∧ s.parameters = p ∧ s.result_name = fom) :
    ∀ (l : List Sample) (j : ℕ), (is_sample_scan p fom l j).1 = false →
    is_sample_scan p fom (l ++ [s]) j = (true, some (j + l.length)) := by
  intro l
  induction l with
  | nil =>
    intro j _
    simp [is_sample_scan, hs]
  | cons h t ih =>
    intro j hnf
    by_cases hc : p.length = h.parameters_size ∧ h.parameters = p ∧ h.result_name = fom
    · rw [is_sample_scan, if_pos hc] at hnf
      simp at hnf
    · rw [is_sample_scan, if_neg hc] at hnf
      rw [List.cons_append, is_sample_scan, if_neg hc, ih (j + 1) hnf]
      simp only [List.length_cons, Prod.mk.injEq, Option.some.injEq, true_and]
      omega

/-- is_sample finds a freshly added matching sample at the index add_sample
returned, provided no earlier sample matched. -/
theorem is_sample_after_add (dc : DataCollection) (p : List ℚ) (name fom : String)
    (arg : ResultArg) (hnf : (dc.is_sample p fom).1 = false) :
    (dc.add_sample p name arg fom).2.is_sample p fom =
      (true, some dc.sample.length) := by
  have hs : p.length = (Sample.init p name arg fom).parameters_size ∧
      (Sample.init p name arg fom).parameters = p ∧
      (Sample.init p name arg fom).result_name = fom := ⟨rfl, rfl, rfl⟩
  have h := is_sample_scan_append_match p fom (Sample.init p name arg fom) hs dc.sample 0 hnf
  simpa [DataCollection.is_sample, DataCollection.add_sample] using h

/-- C4: on a parameter vector not yet stored whose evaluation succeeds and
returns the same parameters, two consecutive run_study calls with force_run
off return the same stored index, the evaluator runs exactly once across the
two calls, and the store gains nothing on the second call. -/
theorem run_study_idempotent (study : List ℚ → StudyRes × List ℚ)
    (fom_name name1 name2 : String) (st : SMState) (p : List ℚ) (r : PyRes)
    (hnf : (st.data.is_sample p fom_name).1 = false)
    (hstudy : study p = (some r, p))
    (hok : pyNeFalse (some r) = true) :
    (run_study study fom_name st p name1 false).2.1 = some st.data.sample.length ∧
    (run_study study fom_name (run_study study fom_name st p name1 false).2.2
        p name2 false).2.1 = some st.data.sample.length ∧
    (run_study study fom_name (run_study study fom_name st p name1 false).2.2
        p name2 false).2.2.data = (run_study study fom_name st p name1 false).2.2.data ∧
    (run_study study fom_name st p name1 false).2.2.study_calls = st.study_calls + 1 ∧
    (run_study study fom_name (run_study study fom_name st p name1 false).2.2
        p name2 false).2.2.study_calls =
      (run_study study fom_name st p name1 false).2.2.study_calls := by
  have e1 : run_study study fom_name st p name1 false =
      (some r,
       some st.data.sample.length,
       { st with
         study_calls := st.study_calls + 1,
         data := (st.data.add_sample p name1 (StudyRes.toResultArg (some r)) fom_name).2 }) := by
    unfold run_study
    rw [hnf, hstudy]
    simp [hok, DataCollection.add_sample]
  have e2 : ((st.data.add_sample p name1 (StudyRes.toResultArg (some r)) fom_name).2).is_sample
      p fom_name = (true, some st.data.sample.length) :=
    is_sample_after_add st.data p name1 fom_name (StudyRes.toResultArg (some r)) hnf
  have e4 : run_study study fom_name
      { st with
        study_calls := st.study_calls + 1,
        data := (st.data.add_sample p name1 (StudyRes.toResultArg (some r)) fom_name).2 }
      p name2 false =
      (some (.vals
        (((st.data.add_sample p name1 (StudyRes.toResultArg (some r)) fom_name).2).sample.getD
          st.data.sample.length default).result),
       some st.data.sample.length,
       { st with
         study_calls := st.study_calls + 1,
         data := (st.data.add_sample p name1 (StudyRes.toResultArg (some r)) fom_name).2 }) := by
    unfold run_study
    dsimp only
    rw [e2]
    simp
  rw [e1, e4]
  exact ⟨rfl, rfl, rfl, rfl, rfl⟩

/-- Witness for the idempotent evaluation at a concrete fresh parameter
vector under the always-succeeding study. -/
theorem run_study_idempotent_witness :
    (run_study studyAlwaysOk "fom" initState [2, 3] "default" false).2.1 =
      some initState.data.sample.length ∧
    (run_study studyAlwaysOk "fom"
        (run_study studyAlwaysOk "fom" initState [2, 3] "default" false).2.2
        [2, 3] "default" false).2.1 = some initState.data.sample.length ∧
    (run_study studyAlwaysOk "fom"
        (run_study studyAlwaysOk "fom" initState [2, 3] "default" false).2.2
        [2, 3] "default" false).2.2.data =
      (run_study studyAlwaysOk "fom" initState [2, 3] "default" false).2.2.data ∧
    (run_study studyAlwaysOk "fom" initState [2, 3] "default" false).2.2.study_calls =
      initState.study_calls + 1 ∧
    (run_study studyAlwaysOk "fom"
        (run_study studyAlwaysOk "fom" initState [2, 3] "default" false).2.2
        [2, 3] "default" false).2.2.study_calls =
      (run_study studyAlwaysOk "fom" initState [2, 3] "default" false).2.2.study_calls :=
  run_study_idempotent studyAlwaysOk "fom" "default" "default" initState [2, 3]
    (PyRes.num 7) (by decide) rfl (by decide)

/-- C10: on a parameter vector not yet stored, run_study inserts a sample
exactly when the evaluator result compares unequal to the Python value
False; in particular a successful evaluation returning the scalar 0 is
treated like the failure sentinel and nothing is inserted. -/
theorem run_study_insert_iff_ne_false (study : List ℚ → StudyRes × List ℚ)
    (fom_name name : String) (st : SMState) (p : List ℚ)
    (hnf : (st.data.is_sample p fom_name).1 = false) :
    ((run_study study fom_name st p name false).2.2.data.sample.length =
        st.data.sample.length + 1 ↔ pyNeFalse (study p).1 = true) ∧
    ((study p).1 = some (.num 0) →
      (run_study study fom_name st p name false).2.2.data = st.data) := by
  have hcond : (!(st.data.is_sample p fom_name).1 || false) = true := by
    rw [hnf]
    rfl
  by_cases hne : pyNeFalse (study p).1 = true
  · have e : (run_study study fom_name st p name false).2.2.data =
        (st.data.add_sample (study p).2 name (study p).1.toResultArg fom_name).2 := by
      unfold run_study
      rw [if_pos hcond, if_pos hne]
    constructor
    · rw [e]
      simp [DataCollection.add_sample, hne]
    · intro h0
      rw [h0] at hne
      simp [pyNeFalse] at hne
  · have e : (run_study study fom_name st p name false).2.2.data = st.data := by
      unfold run_study
      rw [if_pos hcond, if_neg hne]
    refine ⟨?_, fun _ => e⟩
    rw [e]
    constructor
    · intro h
      omega
    · intro h
      exact absurd h hne

/-- Witness for the sentinel comparison: the zero-returning study inserts
nothing on a fresh parameter vector. -/
theorem run_study_insert_iff_ne_false_witness :
    ((run_study studyZero "fom" initState [5] "default" false).2.2.data.sample.length =
        initState.data.sample.length + 1 ↔ pyNeFalse (studyZero [5]).1 = true) ∧
    ((studyZero [5]).1 = some (.num 0) →
      (run_study studyZero "fom" initState [5] "default" false).2.2.data = initState.data) :=
  run_study_insert_iff_ne_false studyZero "fom" "default" initState [5] (by decide)

/-- Bind on a normally returned value in the exception monad. -/
theorem exceptBind_ok {α β : Type} (a : α) (f : α → Except String β) :
    (Except.ok a >>= f) = f a := rfl

/-- Bind on a pure value in the exception monad. -/
theorem exceptBind_pure {α β : Type} (a : α) (f : α → Except String β) :
    ((pure a : Except String α) >>= f) = f a := rfl

/-- Mapping over a pure value in the exception monad. -/
theorem exceptMap_pure {α β : Type} (f : α → β) (a : α) :
    Except.map f (pure a : Except String α) = Except.ok (f a) := rfl

/-- A Python index read inside the list bounds returns normally. -/
theorem npGet_some {α : Type} (l : List α) (i : ℕ) (x : α) (h : l.get? i = some x) :
    npGet l i = Except.ok x := by
  unfold npGet
  rw [h]

/-- linspace with a non-negative sample count returns its sample list. -/
theorem linspace_ok (start stop : ℚ) (num : ℤ) (h : 0 ≤ num) :
    linspace start stop num = Except.ok ((List.range num.toNat).map
      (fun (i : ℕ) => start + (stop - start) * (i : ℚ) / ((num : ℚ) - 1))) := by
  unfold linspace
  rw [if_neg (by omega)]

/-- C5: mesh sizing determinism per axis.  In distance mode the generated
sample count for axis i is the ceiling of the full-space Manhattan
boundary distance divided by the requested distance, plus one; in n_points
mode the derived step written into dist_vector is that distance divided by
the point count minus one. -/
theorem subspace_mesh_axis_sizing (m : TrainedPCA)
    (lower_bound upper_bound dist_vector : List ℚ) (n_points_vector : List ℤ)
    (i : ℕ) (lbi ubi d : ℚ) (n : ℤ)
    (hl : lower_bound.get? i = some lbi) (hu : upper_bound.get? i = some ubi)
    (hd : dist_vector.get? i = some d) (hn : n_points_vector.get? i = some n)
    (hdpos : 0 < d) (hD : 0 < axisFullDistance m lbi ubi i) (hn2 : 2 ≤ n) :
    (meshAxis m lower_bound upper_bound true dist_vector n_points_vector i).map
        (fun out => ((out.1.length : ℤ), out.2.2.1, out.2.2.2)) =
      Except.ok (⌈axisFullDistance m lbi ubi i / d⌉ + 1,
        ⌈axisFullDistance m lbi ubi i / d⌉ + 1, d) ∧
    (meshAxis m lower_bound upper_bound false dist_vector n_points_vector i).map
        (fun out => ((out.1.length : ℤ), out.2.2.1, out.2.2.2)) =
      Except.ok (n, n, axisFullDistance m lbi ubi i / ((n : ℚ) - 1)) := by
  have hceil : (1 : ℤ) ≤ ⌈axisFullDistance m lbi ubi i / d⌉ := by
    have h0 : (0 : ℚ) < axisFullDistance m lbi ubi i / d := div_pos hD hdpos
    have := Int.ceil_pos.mpr h0
    omega
  constructor
  · unfold meshAxis
    rw [npGet_some _ _ _ hl, exceptBind_ok, npGet_some _ _ _ hu, exceptBind_ok]
    simp only [if_true]
    rw [npGet_some _ _ _ hd, exceptBind_ok, exceptBind_pure]
    dsimp only
    rw [linspace_ok _ _ _ (by omega), exceptBind_ok]
    rw [if_pos (by
      simp only [List.length_map, List.length_range]
      omega)]
    rw [npGet_some _ 1 _ (by
        rw [List.get?_map, List.get?_range (by omega)]
        rfl),
      exceptBind_ok,
      npGet_some _ 0 _ (by
        rw [List.get?_map, List.get?_range (by omega)]
        rfl),
      exceptBind_ok, exceptMap_pure]
    simp only [List.length_map, List.length_range]
    rw [Int.toNat_of_nonneg (by omega)]
  · unfold meshAxis
    rw [npGet_some _ _ _ hl, exceptBind_ok, npGet_some _ _ _ hu, exceptBind_ok]
    simp only [Bool.false_eq_true, if_false]
    rw [npGet_some _ _ _ hn, exceptBind_ok, exceptBind_pure]
    dsimp only
    rw [linspace_ok _ _ _ (by omega), exceptBind_ok]
    rw [if_pos (by
      simp only [List.length_map, List.length_range]
      omega)]
    rw [npGet_some _ 1 _ (by
        rw [List.get?_map, List.get?_range (by omega)]
        rfl),
      exceptBind_ok,
      npGet_some _ 0 _ (by
        rw [List.get?_map, List.get?_range (by omega)]
        rfl),
      exceptBind_ok, exceptMap_pure]
    simp only [List.length_map, List.length_range]
    rw [Int.toNat_of_nonneg (by omega)]

/-- Witness for the mesh sizing on a one-component identity model with
boundaries 0 and 3: distance 2 gives three samples, three points give the
step 3/2. -/
theorem subspace_mesh_axis_sizing_witness :
    (meshAxis pcaId1 [0] [3] true [2] [3] 0).map
        (fun out => ((out.1.length : ℤ), out.2.2.1, out.2.2.2)) =
      Except.ok (⌈axisFullDistance pcaId1 0 3 0 / 2⌉ + 1,
        ⌈axisFullDistance pcaId1 0 3 0 / 2⌉ + 1, 2) ∧
    (meshAxis pcaId1 [0] [3] false [2] [3] 0).map
        (fun out => ((out.1.length : ℤ), out.2.2.1, out.2.2.2)) =
      Except.ok (3, 3, axisFullDistance pcaId1 0 3 0 / (((3 : ℤ) : ℚ) - 1)) :=
  subspace_mesh_axis_sizing pcaId1 [0] [3] [2] [3] 0 0 3 2 3
    rfl rfl rfl rfl (by decide) (by decide) (by decide)

/-- A flat map that keeps every character is the identity. -/
theorem flatMap_id_of_forall (g : Char → List Char) :
    ∀ (l : List Char), (∀ c ∈ l, g c = [c]) → l.flatMap g = l := by
  intro l
  induction l with
  | nil => intro _; rfl
  | cons c t ih =>
    intro h
    rw [List.flatMap_cons, h c (by simp), ih (fun x hx => h x (by simp [hx]))]
    rfl

/-- On a benign tag the Python repr escaping keeps every character. -/
theorem pyReprEscapeChar_benign (s : String) (h : benignTag s = true) :
    ∀ c ∈ s.data, pyReprEscapeChar (pyReprQuote s) c = [c] := by
  intro c hc
  unfold benignTag at h
  rw [decide_eq_true_iff] at h
  have hlo : 32 ≤ c.toNat := (h.1 c hc).1
  have hhi : c.toNat ≤ 126 := (h.1 c hc).2
  have hbsl : c ≠ backslashChar := fun hEq => h.2.1 (hEq ▸ hc)
  have hq : c ≠ pyReprQuote s := by
    unfold pyReprQuote
    by_cases hcase : squote ∈ s.data ∧ ¬ dquote ∈ s.data
    · rw [if_pos hcase]
      intro hEq
      exact hcase.2 (hEq ▸ hc)
    · rw [if_neg hcase]
      intro hEq
      exact hcase ⟨hEq ▸ hc, fun hd => h.2.2 ⟨hEq ▸ hc, hd⟩⟩
  have htab : c ≠ Char.ofNat 9 := fun hEq => absurd hlo (by rw [hEq]; decide)
  have hlf : c ≠ Char.ofNat 10 := fun hEq => absurd hlo (by rw [hEq]; decide)
  have hcr : c ≠ Char.ofNat 13 := fun hEq => absurd hlo (by rw [hEq]; decide)
  have hrange : ¬ (c.toNat < 32 ∨ c.toNat = 127) := by omega
  unfold pyReprEscapeChar
  rw [if_neg hbsl, if_neg hq, if_neg htab, if_neg hlf, if_neg hcr, if_neg hrange]

/-- The repr of a benign tag is the tag between plain quotes. -/
theorem pyRepr_benign (s : String) (h : benignTag s = true) :
    pyRepr s = pyReprQuote s :: s.data ++ [pyReprQuote s] := by
  unfold pyRepr
  rw [flatMap_id_of_forall _ s.data (pyReprEscapeChar_benign s h)]

/-- The list-repr strip recovers a benign tag exactly. -/
theorem pyListReprStrip_benign (s : String) (h : benignTag s = true) :
    pyListReprStrip s = s := by
  unfold pyListReprStrip
  rw [pyRepr_benign s h]
  have hlist : [Char.ofNat 91] ++ (pyReprQuote s :: s.data ++ [pyReprQuote s]) ++ [Char.ofNat 93] =
      Char.ofNat 91 :: pyReprQuote s :: (s.data ++ [pyReprQuote s, Char.ofNat 93]) := by
    simp
  rw [hlist]
  have hdrop : (Char.ofNat 91 :: pyReprQuote s ::
      (s.data ++ [pyReprQuote s, Char.ofNat 93])).drop 2 =
      s.data ++ [pyReprQuote s, Char.ofNat 93] := rfl
  rw [hdrop]
  have hlen : (Char.ofNat 91 :: pyReprQuote s ::
      (s.data ++ [pyReprQuote s, Char.ofNat 93])).length - 4 = s.data.length := by
    simp
  rw [hlen, List.take_left' rfl]

/-- Parsing back a row segment of numeric cells yields the written values. -/
theorem mapM_num_cells (l : List ℚ) :
    (l.map CsvCell.num).mapM npFloat64Cell = Except.ok l := by
  induction l with
  | nil => rfl
  | cons q t ih =>
    rw [List.map_cons, List.mapM_cons, ih]
    rfl

/-- One exported row re-imports as one appended sample whose result is the
whole original result vector wrapped as a single array entry. -/
theorem load_row_export_row (ps : ℕ) (dc0 : DataCollection) (s : Sample)
    (hps : s.parameters.length = ps)
    (hsim : benignTag s.simulation_name = true)
    (hres : benignTag s.result_name = true)
    (hnum : ∀ r ∈ s.result, r.isNum = true) :
    load_row ps dc0 s.export_row =
      Except.ok ⟨dc0.sample ++ [⟨s.parameters, s.simulation_name,
        [ResVal.arr (s.result.map ResVal.numVal)], s.result_name⟩]⟩ := by
  have hcells : s.result.map ResVal.toCell =
      (s.result.map ResVal.numVal).map CsvCell.num := by
    rw [List.map_map]
    refine List.map_congr_left ?_
    intro r hr
    have := hnum r hr
    cases r with
    | num q => rfl
    | arr qs => simp [ResVal.isNum] at this
  unfold load_row Sample.export_row
  have hdrop2 : ([CsvCell.str s.simulation_name, CsvCell.str s.result_name]
      ++ s.parameters.map CsvCell.num ++ s.result.map ResVal.toCell).drop 2 =
      s.parameters.map CsvCell.num ++ s.result.map ResVal.toCell := by
    simp
  have hdropAll : ([CsvCell.str s.simulation_name, CsvCell.str s.result_name]
      ++ s.parameters.map CsvCell.num ++ s.result.map ResVal.toCell).drop (ps + 2) =
      s.result.map ResVal.toCell := by
    refine List.drop_left' ?_
    simp only [List.length_append, List.length_cons, List.length_map, List.length_nil, hps]
    omega
  rw [hdrop2, hdropAll, List.take_left' (by simp [hps]), mapM_num_cells, exceptBind_ok,
    hcells, mapM_num_cells, exceptBind_ok]
  simp only [List.cons_append, List.nil_append, List.get?_cons_zero, List.get?_cons_succ,
    CsvCell.tagRead, pyListReprStrip_benign s.simulation_name hsim,
    pyListReprStrip_benign s.result_name hres]
  rfl

/-- Re-importing a whole exported store appends, per original sample, one
sample with the same tags and parameters and the array-wrapped result. -/
theorem load_from_csv_export (ps : ℕ) :
    ∀ (l : List Sample) (acc : DataCollection),
      (∀ s ∈ l, s.parameters.length = ps ∧ benignTag s.simulation_name = true ∧
        benignTag s.result_name = true ∧ ∀ r ∈ s.result, r.isNum = true) →
      DataCollection.load_from_csv acc ps (l.map Sample.export_row) =
        Except.ok ⟨acc.sample ++ l.map (fun s => (⟨s.parameters, s.simulation_name,
          [ResVal.arr (s.result.map ResVal.numVal)], s.result_name⟩ : Sample))⟩ := by
  intro l
  induction l with
  | nil =>
    intro acc _
    simp only [List.map_nil, List.append_nil, DataCollection.load_from_csv, List.foldlM_nil]
    rfl
  | cons s t ih =>
    intro acc h
    obtain ⟨h1, h2, h3, h4⟩ := h s (by simp)
    unfold DataCollection.load_from_csv at ih ⊢
    rw [List.map_cons, List.foldlM_cons, load_row_export_row ps acc s h1 h2 h3 h4,
      exceptBind_ok, ih _ (fun x hx => h x (by simp [hx]))]
    simp

/-- C7 (amended): for a store whose samples have the caller-supplied
parameter count, tags that repr leaves unescaped (printable ASCII, no
backslash, not both quote characters) and scalar result entries, the csv
round trip reconstructs, per sample, the stage tag, the result-name tag
and the parameter vector element-wise, while the result values come back
wrapped as a single array-valued entry, so the imported result sequence
has length one instead of the original length.  Each carve-out is forced
by a branch of the counterexample: escaped tags come back as their escaped
text, and array-valued result entries make the import raise. -/
theorem csv_round_trip_amended (dc : DataCollection) (ps : ℕ)
    (h : ∀ s ∈ dc.sample, s.parameters.length = ps ∧
      benignTag s.simulation_name = true ∧ benignTag s.result_name = true ∧
      ∀ r ∈ s.result, r.isNum = true) :
    ∃ dc2, DataCollection.empty.load_from_csv ps dc.export_to_csv = Except.ok dc2 ∧
      dc2.sample.length = dc.sample.length ∧
      ∀ i s, dc.sample.get? i = some s →
        dc2.sample.get? i = some ⟨s.parameters, s.simulation_name,
          [ResVal.arr (s.result.map ResVal.numVal)], s.result_name⟩ := by
  refine ⟨_, load_from_csv_export ps dc.sample DataCollection.empty h, ?_, ?_⟩
  · simp [DataCollection.empty]
  · intro i s hs
    simp only [DataCollection.empty, List.nil_append, List.get?_map, hs, Option.map_some']

/-- Witness for the amended csv round trip on the concrete two-component
store. -/
theorem csv_round_trip_amended_witness :
    ∃ dc2, DataCollection.empty.load_from_csv 1 dcExport.export_to_csv = Except.ok dc2 ∧
      dc2.sample.length = dcExport.sample.length ∧
      ∀ i s, dcExport.sample.get? i = some s →
        dc2.sample.get? i = some ⟨s.parameters, s.simulation_name,
          [ResVal.arr (s.result.map ResVal.numVal)], s.result_name⟩ :=
  csv_round_trip_amended dcExport 1 (by decide)

/-- C7 counterexample: the round trip fails on concrete stores in each way
the amended claim carves out.  A sample with the two-component scalar
result (1/2, 3/4) re-imports with a result sequence of length 1, not 2; a
stage tag with a backslash comes back with the backslash doubled; a stage
tag with a newline comes back as the literal backslash-n text; a stage tag
with both quote characters comes back with the single quote
backslash-escaped; and a store whose result entry is an array, the shape a
prior load produces, does not load at all and raises ValueError. -/
theorem csv_round_trip_length_counterexample :
    ((DataCollection.empty.load_from_csv 1 dcExport.export_to_csv).map
        (fun d => d.sample.map Sample.result_size) = Except.ok [1] ∧
      dcExport.sample.map Sample.result_size = [2]) ∧
    ((DataCollection.empty.load_from_csv 1 dcBackslashTag.export_to_csv).map
        (fun d => d.sample.map Sample.simulation_name) =
      Except.ok [String.mk [Char.ofNat 97, backslashChar, backslashChar, Char.ofNat 98]] ∧
      tagBackslash = String.mk [Char.ofNat 97, backslashChar, Char.ofNat 98]) ∧
    ((DataCollection.empty.load_from_csv 1 dcNewlineTag.export_to_csv).map
        (fun d => d.sample.map Sample.simulation_name) =
      Except.ok [String.mk [Char.ofNat 97, backslashChar, Char.ofNat 110, Char.ofNat 98]] ∧
      tagNewline = String.mk [Char.ofNat 97, Char.ofNat 10, Char.ofNat 98]) ∧
    ((DataCollection.empty.load_from_csv 1 dcBothQuotesTag.export_to_csv).map
        (fun d => d.sample.map Sample.simulation_name) =
      Except.ok [String.mk [Char.ofNat 97, backslashChar, squote, Char.ofNat 98,
        dquote, Char.ofNat 99]] ∧
      tagBothQuotes = String.mk [Char.ofNat 97, squote, Char.ofNat 98, dquote, Char.ofNat 99]) ∧
    DataCollection.empty.load_from_csv 1 dcArrResult.export_to_csv =
      Except.error "ValueError: could not convert string to float" := by
  decide

end Spacemap
